import Mathlib

set_option maxHeartbeats 1000000

namespace Robot

/-! Shallow embedding of the rpi5-rpios-ai-robot voice-interaction core:
`src/python/ai-chatbot.py` (orchestrator, wake-word loop, endpoint recorder,
command router) and `src/python/system_tools.py` (command-category detection
and tool execution). External services (VOSK, Ollama, TTS, the wake-word
model and the VAD) are modelled at their call contracts by outcome
parameters, exactly as the spec scopes them. -/

/-! ## Regular expressions (Python `re.search`, as used by
`system_tools.detect_command_category`) -/

/-- Regex AST covering the constructs appearing in the source patterns. A
character class is a Boolean predicate; `re.search` semantics are recovered by
wrapping a pattern between unconstrained gaps. -/
inductive Re where
  | emp : Re
  | eps : Re
  | cls : (Char → Bool) → Re
  | alt : Re → Re → Re
  | cat : Re → Re → Re
  | star : Re → Re

/-- Smart alternation (keeps derivative terms small). -/
def reAlt (a b : Re) : Re :=
  match a, b with
  | .emp, r => r
  | l, .emp => l
  | l, r => .alt l r

/-- Smart concatenation (keeps derivative terms small). -/
def reCat (a b : Re) : Re :=
  match a, b with
  | .emp, _ => .emp
  | _, .emp => .emp
  | .eps, r => r
  | l, .eps => l
  | l, r => .cat l r

/-- Whether the regex accepts the empty string. -/
def nullable : Re → Bool
  | .emp => false
  | .eps => true
  | .cls _ => false
  | .alt a b => nullable a || nullable b
  | .cat a b => nullable a && nullable b
  | .star _ => true

/-- Brzozowski derivative with respect to one character. -/
def deriv (c : Char) : Re → Re
  | .emp => .emp
  | .eps => .emp
  | .cls p => if p c then .eps else .emp
  | .alt a b => reAlt (deriv c a) (deriv c b)
  | .cat a b =>
      if nullable a then reAlt (reCat (deriv c a) b) (deriv c b)
      else reCat (deriv c a) b
  | .star a => reCat (deriv c a) (.star a)

/-- Full-string match by iterated derivatives. -/
def matchRe (r : Re) (s : List Char) : Bool :=
  nullable (s.foldl (fun r c => deriv c r) r)

/-- Matches any single character (the unconstrained gap of `re.search`). -/
def reAny : Re := .cls (fun _ => true)

/-- Python `re.search`: the pattern may match anywhere inside the string. -/
def reSearch (r : Re) (s : List Char) : Bool :=
  matchRe (.cat (.star reAny) (.cat r (.star reAny))) s

/-- Single literal character. -/
def reChar (c : Char) : Re := .cls (fun d => d == c)

/-- Literal string. -/
def reStr (s : String) : Re :=
  s.data.foldr (fun c r => Re.cat (reChar c) r) .eps

/-- Alternation of a list of branches, as a `(?:a|b|...)` group. -/
def reAlts : List Re → Re
  | [] => .emp
  | [r] => r
  | r :: rs => .alt r (reAlts rs)

/-- One or more repetitions, Python `+`. -/
def rePlus (r : Re) : Re := .cat r (.star r)

/-- Zero or one repetition, Python `?`. -/
def reOpt (r : Re) : Re := .alt r .eps

/-- Python whitespace class for the ASCII range, `\s`. -/
def pySpaceChar (c : Char) : Bool :=
  c == ' ' || c == '\t' || c == '\n' || c == '\r' || c == '\x0B' || c == '\x0C'

/-- Whitespace class `\s` as a regex. -/
def reSpace : Re := .cls pySpaceChar

/-- Python `.` (any character except newline). -/
def reDot : Re := .cls (fun c => !(c == '\n'))

/-- Python `.*`. -/
def reDotStar : Re := .star reDot

/-! ## system_tools.detect_command_category (stage-1 category detection) -/

/-- Pattern `(?:set|change|adjust|make|turn|increase|decrease|raise|lower)\s+(?:the\s+)?volume`. -/
def vol_en_re : Re :=
  .cat (reAlts [reStr "set", reStr "change", reStr "adjust", reStr "make", reStr "turn",
                reStr "increase", reStr "decrease", reStr "raise", reStr "lower"])
    (.cat (rePlus reSpace)
      (.cat (reOpt (.cat (reStr "the") (rePlus reSpace))) (reStr "volume")))

/-- Pattern `(?:اضبط|غير|عدل|ارفع|اخفض|زود|قلل)\s+(?:ال)?صوت`. -/
def vol_ar_re : Re :=
  .cat (reAlts [reStr "اضبط", reStr "غير", reStr "عدل", reStr "ارفع",
                reStr "اخفض", reStr "زود", reStr "قلل"])
    (.cat (rePlus reSpace) (.cat (reOpt (reStr "ال")) (reStr "صوت")))

/-- Pattern `(?:what|tell).*time|time.*(?:is\s+it)`. -/
def time_en_re : Re :=
  .alt (.cat (reAlts [reStr "what", reStr "tell"]) (.cat reDotStar (reStr "time")))
       (.cat (reStr "time")
         (.cat reDotStar (.cat (reStr "is") (.cat (rePlus reSpace) (reStr "it")))))

/-- Pattern `(?:ما|كم|أخبرني)\s+.*(?:الوقت|الساعة)|(?:الوقت|الساعة).*(?:الآن|حالياً)`. -/
def time_ar_re : Re :=
  .alt (.cat (reAlts [reStr "ما", reStr "كم", reStr "أخبرني"])
          (.cat (rePlus reSpace) (.cat reDotStar (reAlts [reStr "الوقت", reStr "الساعة"]))))
       (.cat (reAlts [reStr "الوقت", reStr "الساعة"])
          (.cat reDotStar (reAlts [reStr "الآن", reStr "حالياً"])))

/-- Pattern `(?:what|tell).*(?:date|day)|(?:date|day).*(?:is\s+it|today)`. -/
def date_en_re : Re :=
  .alt (.cat (reAlts [reStr "what", reStr "tell"])
          (.cat reDotStar (reAlts [reStr "date", reStr "day"])))
       (.cat (reAlts [reStr "date", reStr "day"])
          (.cat reDotStar
            (reAlts [.cat (reStr "is") (.cat (rePlus reSpace) (reStr "it")), reStr "today"])))

/-- Pattern `(?:ما|كم|أخبرني)\s+.*(?:التاريخ|اليوم)`. -/
def date_ar_re : Re :=
  .cat (reAlts [reStr "ما", reStr "كم", reStr "أخبرني"])
    (.cat (rePlus reSpace) (.cat reDotStar (reAlts [reStr "التاريخ", reStr "اليوم"])))

/-- Pattern `(?:take|capture|use)\s+(?:a\s+)?(?:picture|photo|image|camera)|(?:what.*see|describe.*see)`. -/
def cam_en_re : Re :=
  .alt (.cat (reAlts [reStr "take", reStr "capture", reStr "use"])
          (.cat (rePlus reSpace)
            (.cat (reOpt (.cat (reStr "a") (rePlus reSpace)))
              (reAlts [reStr "picture", reStr "photo", reStr "image", reStr "camera"]))))
       (reAlts [.cat (reStr "what") (.cat reDotStar (reStr "see")),
                .cat (reStr "describe") (.cat reDotStar (reStr "see"))])

/-- Pattern `(?:التقط|خذ|صور)\s+(?:صورة|لقطة)`. -/
def cam_ar_re : Re :=
  .cat (reAlts [reStr "التقط", reStr "خذ", reStr "صور"])
    (.cat (rePlus reSpace) (reAlts [reStr "صورة", reStr "لقطة"]))

/-- Pattern `(?:shut\s*down|power\s+off|turn\s+off)(?:\s+(?:system|robot))?`. -/
def shut_en_re : Re :=
  .cat (reAlts [.cat (reStr "shut") (.cat (.star reSpace) (reStr "down")),
                .cat (reStr "power") (.cat (rePlus reSpace) (reStr "off")),
                .cat (reStr "turn") (.cat (rePlus reSpace) (reStr "off"))])
    (reOpt (.cat (rePlus reSpace) (reAlts [reStr "system", reStr "robot"])))

/-- Pattern `(?:أطفئ|أغلق|أوقف)\s+(?:النظام|الجهاز|التشغيل)?`. -/
def shut_ar_re : Re :=
  .cat (reAlts [reStr "أطفئ", reStr "أغلق", reStr "أوقف"])
    (.cat (rePlus reSpace) (reOpt (reAlts [reStr "النظام", reStr "الجهاز", reStr "التشغيل"])))

/-- Python `str.lower` (ASCII case folding, which is what the inputs here use). -/
def pyLower (s : String) : String := String.mk (s.data.map Char.toLower)

/-- Python `str.strip` on a character list (whitespace from both ends). -/
def pyStripList (l : List Char) : List Char :=
  ((l.dropWhile pySpaceChar).reverse.dropWhile pySpaceChar).reverse

/-- Python `str.strip`. -/
def pyStrip (s : String) : String := String.mk (pyStripList s.data)

/-- Stage-1 category detection, `system_tools.detect_command_category`:
lowercase and strip the transcript, then try the bilingual patterns in source
order, returning the first matching category. -/
def detect_command_category (text : String) : Option String :=
  let t := (pyStrip (pyLower text)).data
  if reSearch vol_en_re t then some "VOLUME_COMMAND"
  else if reSearch vol_ar_re t then some "VOLUME_COMMAND"
  else if reSearch time_en_re t then some "TIME_COMMAND"
  else if reSearch time_ar_re t then some "TIME_COMMAND"
  else if reSearch date_en_re t then some "DATE_COMMAND"
  else if reSearch date_ar_re t then some "DATE_COMMAND"
  else if reSearch cam_en_re t then some "CAMERA_COMMAND"
  else if reSearch cam_ar_re t then some "CAMERA_COMMAND"
  else if reSearch shut_en_re t then some "SHUTDOWN_COMMAND"
  else if reSearch shut_ar_re t then some "SHUTDOWN_COMMAND"
  else none

/-! ## system_tools: localized strings, set_volume, execute_tool -/

/-- Template `"Volume set to {percent}%"` (en) / its Arabic counterpart, already
applied to its argument: `get_string('volume_set', percent=p)`. Any language
other than the `ar` key falls back to English, as `STRINGS.get(LANGUAGE, STRINGS['en'])`
does. -/
def get_string_volume_set (lang : String) (percent : Int) : String :=
  if lang = "ar" then "تم ضبط الصوت إلى " ++ toString percent ++ "%"
  else "Volume set to " ++ toString percent ++ "%"

/-- Template `"Failed to set volume: {error}"` (en) / Arabic, applied. -/
def get_string_volume_error (lang : String) (error : String) : String :=
  if lang = "ar" then "فشل ضبط الصوت: " ++ error
  else "Failed to set volume: " ++ error

/-- String `'camera_capture_triggered'` (identical in both languages). -/
def get_string_camera_triggered : String := "camera_capture_triggered"

/-- Template `"The current time is {time_str}"` (en) / Arabic, applied. -/
def get_string_time (lang : String) (time_str : String) : String :=
  if lang = "ar" then "الوقت الحالي هو " ++ time_str
  else "The current time is " ++ time_str

/-- Template `"Today is {date_str}"` (en) / Arabic, applied. -/
def get_string_date (lang : String) (date_str : String) : String :=
  if lang = "ar" then "اليوم هو " ++ date_str
  else "Today is " ++ date_str

/-- String `'shutdown'` spoken before powering off (en) / Arabic. -/
def get_string_shutdown (lang : String) : String :=
  if lang = "ar" then "إيقاف تشغيل النظام في ٣ ٢ ١"
  else "System is shutting down in 3 2 1"

/-- String `'shutdown_msg'` returned by `shutdown_system` (en) / Arabic. -/
def get_string_shutdown_msg (lang : String) : String :=
  if lang = "ar" then "إيقاف تشغيل النظام"
  else "Shutting down system"

/-- Outcome of the external `amixer` subprocess call inside `set_volume`. -/
inductive AmixerResult where
  | ok : AmixerResult
  | failed : String → AmixerResult
  | raised : String → AmixerResult
deriving DecidableEq, Repr

/-- The clamp `max(0, min(100, int(percent)))` from `set_volume` (the claim is
about integer inputs, on which Python `int` is the identity). -/
def clamp_percent (percent : Int) : Int := max 0 (min 100 percent)

/-- Argument vector handed to `subprocess.run` by `set_volume`:
`['amixer', 'set', 'Speaker', f'{percent}%']` with the clamped percentage. -/
def amixer_args (percent : Int) : List String :=
  ["amixer", "set", "Speaker", toString (clamp_percent percent) ++ "%"]

/-- `system_tools.set_volume`: clamp, run `amixer` (outcome `r`), and return a
localized success or error string; every branch, including a raised exception,
returns a string. -/
def set_volume (lang : String) (percent : Int) (r : AmixerResult) : String :=
  let percent := clamp_percent percent
  match r with
  | .ok => get_string_volume_set lang percent
  | .failed stderr => get_string_volume_error lang stderr
  | .raised e => get_string_volume_error lang e

/-- The keys of `TOOL_FUNCTIONS` in `system_tools.py`. -/
def TOOL_NAMES : List String :=
  ["set_volume", "take_picture", "get_current_time", "get_current_date", "shutdown_system"]

/-- Declared parameter names of each tool function, as `inspect.signature`
reports them: only `set_volume` takes a parameter (`percent`). -/
def tool_param_names (name : String) : List String :=
  if name = "set_volume" then ["percent"] else []

/-- Observable side effects of running a tool. -/
inductive ToolEffect where
  | amixer_set : String → ToolEffect
  | speak : String → ToolEffect
  | shutdown : ToolEffect
deriving DecidableEq, Repr

/-- Environment for a tool invocation: configured language, the `amixer`
outcome, and the strings the clock renders (`strftime` output). -/
structure ToolWorld where
  lang : String
  amixer : AmixerResult
  time_str : String
  date_str : String
deriving DecidableEq, Repr

/-- Invoking the selected tool function with the already-cleaned keyword
arguments, `func(**clean_args)` / `func()`. Calling `set_volume` without its
required `percent` raises a TypeError that `execute_tool`'s handler turns into
an error string (the interpreter's message text is abstracted). -/
def call_tool (w : ToolWorld) (name : String) (clean_args : List (String × Int)) :
    String × List ToolEffect :=
  if name = "set_volume" then
    match clean_args.lookup "percent" with
    | some p => (set_volume w.lang p w.amixer,
                 [.amixer_set (toString (clamp_percent p) ++ "%")])
    | none => ("Error executing set_volume: TypeError", [])
  else if name = "take_picture" then (get_string_camera_triggered, [])
  else if name = "get_current_time" then (get_string_time w.lang w.time_str, [])
  else if name = "get_current_date" then (get_string_date w.lang w.date_str, [])
  else if name = "shutdown_system" then
    (get_string_shutdown_msg w.lang, [.speak (get_string_shutdown w.lang), .shutdown])
  else ("", [])

/-- `system_tools.execute_tool`: unknown names return
`"Unknown function: <name>"` without calling anything; otherwise the argument
dict (`some kvs`; `none` models a non-dict payload) is filtered down to the
target's declared parameter names before the call. -/
def execute_tool (w : ToolWorld) (function_name : String)
    (arguments : Option (List (String × Int))) : String × List ToolEffect :=
  if function_name ∈ TOOL_NAMES then
    let clean_args :=
      match arguments with
      | some kvs => kvs.filter (fun kv => decide (kv.1 ∈ tool_param_names function_name))
      | none => []
    call_tool w function_name clean_args
  else ("Unknown function: " ++ function_name, [])

/-! ## Command Dispatcher path selection (answer_question, stage 1 → stage 2) -/

/-- Which external path `answer_question` takes after stage-1 category
detection: a detected `CAMERA_COMMAND` bypasses the LLM and triggers the
camera; every other detected category goes to `ollama.chat` with
`TOOL_DEFINITIONS`; no category goes to `ollama.chat` without tools. -/
inductive DispatchPath where
  | camera_direct : DispatchPath
  | llm_with_tools : DispatchPath
  | llm_no_tools : DispatchPath
deriving DecidableEq, Repr

/-- Path selection of `answer_question` on the stage-1 result. -/
def dispatch_path (category : Option String) : DispatchPath :=
  match category with
  | some c => if c = "CAMERA_COMMAND" then .camera_direct else .llm_with_tools
  | none => .llm_no_tools

/-- Whether a dispatch path performs an `ollama.chat` inference call. -/
def calls_llm : DispatchPath → Bool
  | .camera_direct => false
  | .llm_with_tools => true
  | .llm_no_tools => true

/-! ## ai-chatbot.py: data model -/

/-- One `{role, content}` turn of the conversation history. -/
structure Msg where
  role : String
  content : String
deriving DecidableEq, Repr

/-- The `State` enum of the orchestrator. -/
inductive State where
  | wake_listening : State
  | wake_detected : State
  | idle : State
  | listening : State
  | transcribing : State
  | answering : State
  | speaking : State
  | camera : State
deriving DecidableEq, Repr

/-- The `.value` string of each `State` member. -/
def State.val : State → String
  | .wake_listening => "wake_listening"
  | .wake_detected => "wake_detected"
  | .idle => "idle"
  | .listening => "listening"
  | .transcribing => "transcribing"
  | .answering => "answering"
  | .speaking => "speaking"
  | .camera => "camera"

/-- The fields of `AIChatBot` the verified claims touch. Timestamps
(`time.time()` values) are rationals; an audio block is the list of signed
16-bit samples read from the 48 kHz stream. -/
structure Bot where
  state : State
  conversation_history : List Msg
  last_interaction_time : ℚ
  wake_word_enabled : Bool
  wake_word_paused : Bool
  audio_buffer : List (List Int)
  recording_start_time : ℚ
  recording_duration : ℚ
  is_recording : Bool
  vad : Bool
  last_speech_time : ℚ
  speech_started : Bool
  tts_cooldown_until : ℚ
deriving DecidableEq, Repr

/-- Subset of `config.ini` `[wake_word]` options the loop reads. -/
structure WakeConfig where
  threshold : ℚ
  vad_enabled : Bool
  silence_threshold : ℚ
  max_recording_time : ℚ
deriving DecidableEq, Repr

/-- External calls a handler step requests (boundary to VOSK / camera / TTS). -/
inductive Effect where
  | transcribe : Effect
  | camera_capture : Effect
  | play_feedback : Effect
deriving DecidableEq, Repr

/-- The recurring idiom `WAKE_LISTENING if self.wake_word_enabled else IDLE`. -/
def return_listening_state (b : Bot) : Bot :=
  { b with state := if b.wake_word_enabled then .wake_listening else .idle }

/-! ## Resampler: NumPy `[::k]` slicing (wake-word and VAD feeds) -/

/-- Counter-driven picker realizing `a[::k]`: with countdown `0` the head is
kept and the counter resets to `k - 1`, otherwise the head is skipped. -/
def everyKthAux (k : Nat) : Nat → List Int → List Int
  | _, [] => []
  | 0, x :: xs => x :: everyKthAux k (k - 1) xs
  | c + 1, _ :: xs => everyKthAux k c xs

/-- NumPy slicing `a[::k]`: keep indices `0, k, 2k, …`. -/
def everyKth (l : List Int) (k : Nat) : List Int := everyKthAux k 0 l

/-- `DECIMATION_FACTOR = NATIVE_RATE // TARGET_RATE` from `wake_word_loop`. -/
def DECIMATION_FACTOR : Nat := 48000 / 16000

/-- The block fed to the wake-word spotting model:
`audio_array_48k[::DECIMATION_FACTOR]` (line 909). -/
def spotting_feed (audio_array_48k : List Int) : List Int :=
  everyKth audio_array_48k DECIMATION_FACTOR

/-- The block fed to the voice-activity detector:
`audio_array_48k[::DECIMATION_FACTOR]` (line 865). -/
def vad_feed (audio_array_48k : List Int) : List Int :=
  everyKth audio_array_48k DECIMATION_FACTOR

/-- Byte size of the WAV artifact written by `save_audio_buffer_to_wav`: a
44-byte PCM WAV header plus two bytes per 16 kHz sample. The sample count of
`scipy.signal.decimate(audio_48k, 3)` (zero-phase filtering, then a `[::3]`
pick) is `⌈N/3⌉`; the sample values pass through its anti-aliasing filter and
are modelled only through this count. -/
def saved_wav_size (audio_buffer : List (List Int)) : Nat :=
  44 + 2 * ((audio_buffer.flatten.length + 2) / 3)

/-! ## Orchestrator steps -/

/-- `start_recording` (K1 button): enter LISTENING, clear the buffer, stamp
the start time, arm the 10-second ceiling. -/
def start_recording (b : Bot) (now : ℚ) : Bot :=
  { b with state := .listening, audio_buffer := [], recording_start_time := now,
           is_recording := true, recording_duration := 10 }

/-- `stop_recording`: a no-op unless currently recording; otherwise clear the
flag and either discard (empty buffer, or saved file under 1000 bytes) and
fall back to `WAKE_LISTENING`/`IDLE`, or save and hand the file to
`transcribe_audio` (the `.transcribe` effect) in state TRANSCRIBING. -/
def stop_recording (b : Bot) : Bot × List Effect :=
  if b.is_recording = false then (b, [])
  else
    let b := { b with is_recording := false }
    if b.audio_buffer = [] then (return_listening_state b, [])
    else if saved_wav_size b.audio_buffer < 1000 then (return_listening_state b, [])
    else ({ b with state := .transcribing }, [.transcribe])

/-- Result of the external VOSK recognition on the saved file: the final
transcript text, or an exception anywhere in the transcription block. -/
inductive AsrOutcome where
  | result : String → AsrOutcome
  | failure : AsrOutcome
deriving DecidableEq, Repr

/-- `transcribe_audio`: on a non-empty stripped transcript, hand it to
`answer_question` (returned as `some text`); on an empty transcript, set a
one-second cooldown and return to WAKE_LISTENING when wake word is enabled,
else IDLE; on an exception, go to IDLE. -/
def transcribe_audio (b : Bot) (now : ℚ) (outcome : AsrOutcome) : Bot × Option String :=
  let b := { b with state := .transcribing }
  match outcome with
  | .result text =>
      let transcribed_text := pyStrip text
      if transcribed_text ≠ "" then (b, some transcribed_text)
      else if b.wake_word_enabled then
        ({ b with tts_cooldown_until := now + 1, state := .wake_listening }, none)
      else ({ b with state := .idle }, none)
  | .failure => ({ b with state := .idle }, none)

/-- Python `lst[-m:]`, as used by the history trim (`[-0:]` is the whole
list). -/
def pySliceLast (l : List Msg) (m : Nat) : List Msg :=
  if m = 0 then l else l.drop (l.length - m)

/-- The history bookkeeping at the top of `answer_question` at the list level:
reset on timeout, append the user turn, then trim to the last `max_history`
entries when the length exceeds it (`self.conversation_history[-max_history:]`). -/
def history_after_user_turn (hist : List Msg) (timed_out : Bool) (question : String)
    (max_history : Nat) : List Msg :=
  let hist := if timed_out then [] else hist
  let hist := hist ++ [⟨"user", question⟩]
  if max_history < hist.length then pySliceLast hist max_history else hist

/-- The entry of `answer_question`: ANSWERING state, the timeout check
`time.time() - self.last_interaction_time > timeout`, the interaction-time
stamp, and the user-turn append/trim of `history_after_user_turn`. -/
def answer_question_begin (b : Bot) (now : ℚ) (question : String)
    (chat_history_timeout : ℚ) (max_history : Nat) : Bot :=
  { b with state := .answering,
           last_interaction_time := now,
           conversation_history :=
             history_after_user_turn b.conversation_history
               (decide (chat_history_timeout < now - b.last_interaction_time))
               question max_history }

/-- Appending the assistant reply inside `answer_question` (tool-result,
fallback and free-form branches all do exactly this, with no re-trim). -/
def append_assistant (b : Bot) (answer : String) : Bot :=
  { b with conversation_history := b.conversation_history ++ [⟨"assistant", answer⟩] }

/-- Outcome of the blocking `subprocess.run(['speak', text], timeout=30)`. -/
inductive TtsOutcome where
  | ok : TtsOutcome
  | timeout : TtsOutcome
  | failed : TtsOutcome
deriving DecidableEq, Repr

/-- `speak_answer`: enter SPEAKING and pause wake-word detection; on a
completed render, set `tts_cooldown_until = now + 1.5`, unpause, and return to
WAKE_LISTENING/IDLE; on `TimeoutExpired` or any other exception, unpause and
return to WAKE_LISTENING/IDLE (these branches do not touch the cooldown). -/
def speak_answer (b : Bot) (now : ℚ) (outcome : TtsOutcome) : Bot :=
  let b := { b with state := .speaking, wake_word_paused := true }
  match outcome with
  | .ok =>
      let b := { b with tts_cooldown_until := now + 3 / 2, wake_word_paused := false }
      return_listening_state b
  | .timeout =>
      let b := { b with wake_word_paused := false }
      { b with state := if b.wake_word_enabled then .wake_listening else .idle }
  | .failed =>
      let b := { b with wake_word_paused := false }
      { b with state := if b.wake_word_enabled then .wake_listening else .idle }

/-! ## Wake-Word Listener loop body -/

/-- `max(prediction.values()) if prediction else 0` over the spotting model's
phrase-to-confidence output. -/
def max_score_of (prediction : List (String × ℚ)) : ℚ :=
  match prediction.map Prod.snd with
  | [] => 0
  | v :: vs => vs.foldl max v

/-- `wake_word_detected_handler`: WAKE_DETECTED, feedback sound, VAD setup
(`last_speech_time = now`, `speech_started = False`), fresh recording session
with the configured ceiling, then LISTENING. -/
def wake_word_detected_handler (b : Bot) (now : ℚ) (cfg : WakeConfig)
    (vad_available : Bool) : Bot × List Effect :=
  let b := { b with state := .wake_detected }
  let b :=
    if cfg.vad_enabled && vad_available then
      { b with vad := true, last_speech_time := now, speech_started := false }
    else { b with vad := false }
  let b := { b with audio_buffer := [], recording_start_time := now,
                    is_recording := true, recording_duration := cfg.max_recording_time }
  ({ b with state := .listening }, [.play_feedback])

/-- The detection half of one `wake_word_loop` iteration (lines 906-936): only
in state WAKE_LISTENING with detection unpaused is the decimated block fed to
the spotting model; a prediction observed during the TTS cooldown is discarded
(`continue`); otherwise a maximum confidence above the threshold invokes
`wake_word_detected_handler`. Returns the updated bot and whether a
wake-detected event fired. -/
def wake_detection_step (b : Bot) (now : ℚ) (prediction : List (String × ℚ))
    (cfg : WakeConfig) (vad_available : Bool) : Bot × Bool :=
  if b.state = .wake_listening ∧ b.wake_word_paused = false then
    if now < b.tts_cooldown_until then (b, false)
    else
      let max_score := max_score_of prediction
      if cfg.threshold < max_score then
        ((wake_word_detected_handler b now cfg vad_available).1, true)
      else (b, false)
  else (b, false)

/-- The recording half of one `wake_word_loop` iteration (lines 857-904),
taken when `is_recording`: append the block, then decide whether to call
`stop_recording`. With a VAD, the per-sub-frame verdicts of the external
detector (`vad_verdicts`; speech if any sub-frame is speech) refresh
`last_speech_time`/`speech_started`, and the recording stops on
`speech_started ∧ silence ≥ silence_threshold`, else on
`elapsed ≥ recording_duration`; without a VAD only the elapsed-time ceiling
stops it. Returns the updated bot and whether `stop_recording` was invoked. -/
def recording_step (b : Bot) (block : List Int) (vad_verdicts : List Bool)
    (now : ℚ) (cfg : WakeConfig) : Bot × Bool :=
  if b.is_recording = false then (b, false)
  else
    let b := { b with audio_buffer := b.audio_buffer ++ [block] }
    let elapsed := now - b.recording_start_time
    if b.vad then
      let is_speech := vad_verdicts.any (fun v => v)
      let b :=
        if is_speech then { b with last_speech_time := now, speech_started := true }
        else b
      let silence_duration := now - b.last_speech_time
      if b.speech_started = true ∧ cfg.silence_threshold ≤ silence_duration then (b, true)
      else if b.recording_duration ≤ elapsed then (b, true)
      else (b, false)
    else
      if b.recording_duration ≤ elapsed then (b, true)
      else (b, false)

/-! ## Command Router: handle_command -/

/-- The `STATUS` response `json.dumps({state, conversation_length,
wake_word_enabled})`. -/
def status_response (b : Bot) : String :=
  "\x7b\"state\": \"" ++ b.state.val ++ "\", \"conversation_length\": "
    ++ toString b.conversation_history.length ++ ", \"wake_word_enabled\": "
    ++ (if b.wake_word_enabled then "true" else "false") ++ "\x7d"

/-- `capture_camera`, cut at the camera subprocess boundary: disabled cameras
are a no-op, otherwise the CAMERA state is entered and the capture requested. -/
def capture_camera_begin (b : Bot) (camera_enabled : Bool) : Bot × List Effect :=
  if camera_enabled = false then (b, [])
  else ({ b with state := .camera }, [.camera_capture])

/-- `handle_command`: the socket command surface. Guards silently ignore
out-of-state triggers; every action answers `"OK"`, `STATUS` answers the
snapshot document. -/
def handle_command (b : Bot) (now : ℚ) (camera_enabled : Bool) (command : String) :
    Bot × List Effect × String :=
  if command = "START_RECORDING" then
    if b.state = .idle ∨ b.state = .wake_listening then (start_recording b now, [], "OK")
    else (b, [], "OK")
  else if command = "STOP_RECORDING" then
    if b.state = .listening then
      let r := stop_recording b
      (r.1, r.2, "OK")
    else (b, [], "OK")
  else if command = "CAMERA_CAPTURE" then
    if b.state = .idle ∨ b.state = .wake_listening then
      let r := capture_camera_begin b camera_enabled
      (r.1, r.2, "OK")
    else (b, [], "OK")
  else if command = "STATUS" then (b, [], status_response b)
  else if command = "RESET" then
    let b := { b with conversation_history := [] }
    (return_listening_state b, [], "OK")
  else (b, [], "OK")

/-! ## Concrete fixtures used by the claim theorems -/

/-- A concrete bot in steady wake-listening: wake word enabled, empty history,
no cooldown, not recording. -/
def bot0 : Bot :=
  { state := .wake_listening
    conversation_history := []
    last_interaction_time := 0
    wake_word_enabled := true
    wake_word_paused := false
    audio_buffer := []
    recording_start_time := 0
    recording_duration := 10
    is_recording := false
    vad := false
    last_speech_time := 0
    speech_started := false
    tts_cooldown_until := 0 }

/-- The configured defaults of `[wake_word]`: threshold 0.5, VAD on, 0.8 s
silence threshold, 10 s ceiling. -/
def cfg0 : WakeConfig :=
  { threshold := 1 / 2, vad_enabled := true, silence_threshold := 4 / 5,
    max_recording_time := 10 }

/-- A concrete spotting-model output: one phrase at confidence 0.62. -/
def pred0 : List (String × ℚ) := [("hey_jarvis_v0.1", 31 / 50)]

/-- A concrete tool-invocation environment (English, `amixer` succeeding). -/
def world0 : ToolWorld :=
  { lang := "en", amixer := .ok, time_str := "02:30 PM",
    date_str := "Wednesday, December 10, 2025" }

/-! ## Decimation lemmas -/

theorem everyKthAux_length (k : Nat) (hk : 1 ≤ k) (l : List Int) :
    ∀ c : Nat, (everyKthAux k c l).length = (l.length - c + k - 1) / k := by
  induction l with
  | nil =>
      intro c
      simp only [everyKthAux, List.length_nil, Nat.zero_sub]
      symm
      exact Nat.div_eq_of_lt (by omega)
  | cons x xs ih =>
      intro c
      cases c with
      | zero =>
          simp only [everyKthAux, List.length_cons, ih (k - 1)]
          have h1 : xs.length + 1 - 0 + k - 1 = xs.length + k := by omega
          rw [h1, Nat.add_div_right _ (by omega)]
          rcases le_or_lt (k - 1) xs.length with h | h
          · have h2 : xs.length - (k - 1) + k - 1 = xs.length := by omega
            rw [h2]
          · have h2 : xs.length - (k - 1) = 0 := by omega
            rw [h2, Nat.div_eq_of_lt (by omega), Nat.div_eq_of_lt (by omega)]
      | succ c =>
          simp only [everyKthAux, List.length_cons, ih c]
          congr 1
          omega

theorem everyKthAux_getD (k : Nat) (hk : 1 ≤ k) (l : List Int) :
    ∀ c i : Nat, (everyKthAux k c l).getD i 0 = l.getD (c + i * k) 0 := by
  induction l with
  | nil => intro c i; simp [everyKthAux]
  | cons x xs ih =>
      intro c i
      cases c with
      | zero =>
          cases i with
          | zero => simp [everyKthAux]
          | succ i =>
              have hidx : 0 + (i + 1) * k = (i * k + (k - 1)) + 1 := by
                rw [Nat.succ_mul]; omega
              rw [hidx]
              simp only [everyKthAux, List.getD_cons_succ, ih (k - 1) i]
              congr 1
              omega
      | succ c =>
          have hidx : c + 1 + i * k = (c + i * k) + 1 := by omega
          rw [hidx]
          simp only [everyKthAux, List.getD_cons_succ, ih c i]

theorem everyKth_length (l : List Int) (k : Nat) (hk : 1 ≤ k) :
    (everyKth l k).length = (l.length + k - 1) / k := by
  have := everyKthAux_length k hk l 0
  simpa [everyKth] using this

theorem everyKth_getD (l : List Int) (k : Nat) (hk : 1 ≤ k) (i : Nat) :
    (everyKth l k).getD i 0 = l.getD (i * k) 0 := by
  have := everyKthAux_getD k hk l 0 i
  simpa [everyKth] using this

/-! ## History lemmas -/

theorem pySliceLast_length_le (l : List Msg) (m : Nat) (hm : 1 ≤ m) :
    (pySliceLast l m).length ≤ m := by
  unfold pySliceLast
  rw [if_neg (by omega)]
  simp only [List.length_drop]
  omega

theorem pySliceLast_suffix (l : List Msg) (m : Nat) :
    (pySliceLast l m).IsSuffix l := by
  unfold pySliceLast
  split
  · exact List.suffix_refl l
  · exact List.drop_suffix _ _

theorem history_after_user_turn_length (hist : List Msg) (t : Bool) (q : String)
    (max_history : Nat) (hm : 1 ≤ max_history) :
    (history_after_user_turn hist t q max_history).length ≤ max_history := by
  unfold history_after_user_turn
  dsimp only
  split <;> split
  all_goals first
    | exact pySliceLast_length_le _ _ hm
    | omega

theorem history_after_user_turn_suffix (hist : List Msg) (t : Bool) (q : String)
    (max_history : Nat) :
    (history_after_user_turn hist t q max_history).IsSuffix
      ((if t then [] else hist) ++ [⟨"user", q⟩]) := by
  unfold history_after_user_turn
  dsimp only
  split <;> split
  all_goals first
    | exact pySliceLast_suffix _ _
    | exact List.suffix_refl _

/-! ## Claim theorems -/

/-- Claim C1 (confirmed): in state WakeListening with detection unpaused, a
spotting result whose maximum confidence exceeds the threshold produces no
wake-detected event (and changes nothing) when observed strictly before the
cooldown timestamp, and produces exactly one wake-detected event — entering
LISTENING with a fresh recording — when observed strictly after it. -/
theorem wake_cooldown_suppression (b : Bot) (now : ℚ) (prediction : List (String × ℚ))
    (cfg : WakeConfig) (vad_available : Bool)
    (hstate : b.state = .wake_listening) (hpaused : b.wake_word_paused = false)
    (hconf : cfg.threshold < max_score_of prediction) :
    (now < b.tts_cooldown_until →
      wake_detection_step b now prediction cfg vad_available = (b, false)) ∧
    (b.tts_cooldown_until < now →
      (wake_detection_step b now prediction cfg vad_available).2 = true ∧
      (wake_detection_step b now prediction cfg vad_available).1.state = .listening ∧
      (wake_detection_step b now prediction cfg vad_available).1.is_recording = true) := by
  unfold wake_detection_step
  rw [if_pos ⟨hstate, hpaused⟩]
  constructor
  · intro hlt
    rw [if_pos hlt]
  · intro hgt
    rw [if_neg (by linarith), if_pos hconf]
    refine ⟨rfl, ?_, ?_⟩
    · unfold wake_word_detected_handler
      split <;> rfl
    · unfold wake_word_detected_handler
      split <;> rfl

/-- Witness for C1: with threshold 0.5, confidence 0.62 and cooldown ending at
t = 10, the observation at t = 5 is discarded and the one at t = 20 fires. -/
theorem wake_cooldown_suppression_witness :
    wake_detection_step { bot0 with tts_cooldown_until := 10 } 5 pred0 cfg0 true
        = ({ bot0 with tts_cooldown_until := 10 }, false) ∧
    (wake_detection_step { bot0 with tts_cooldown_until := 10 } 20 pred0 cfg0 true).2 = true := by
  constructor
  · exact (wake_cooldown_suppression _ 5 pred0 cfg0 true rfl rfl
      (by norm_num [pred0, cfg0, max_score_of])).1 (by norm_num [bot0])
  · exact ((wake_cooldown_suppression _ 20 pred0 cfg0 true rfl rfl
      (by norm_num [pred0, cfg0, max_score_of])).2 (by norm_num [bot0])).1

/-- Claim C2 (code bug): the timeout and exception branches of `speak_answer`
return to WakeListening without touching `tts_cooldown_until` — evaluated at
t = 100 the cooldown stays 0, i.e. strictly in the past — while the success
branch does set it to t + 1.5 as the spec describes for every branch. -/
theorem speak_answer_failure_skips_cooldown :
    (speak_answer bot0 100 .timeout).tts_cooldown_until = 0 ∧
    ¬ ((100 : ℚ) < (speak_answer bot0 100 .timeout).tts_cooldown_until) ∧
    (speak_answer bot0 100 .timeout).state = .wake_listening ∧
    (speak_answer bot0 100 .failed).tts_cooldown_until = 0 ∧
    (speak_answer bot0 100 .ok).tts_cooldown_until = 100 + 3 / 2 := by
  refine ⟨rfl, by norm_num [speak_answer, bot0], rfl, rfl, rfl⟩

/-- Claim C3 counterexample: the transformation actually applied to the
spotting-model feed, `audio_array_48k[::3]`, yields 2 samples on a native
block of 4, not `⌊4/3⌋ = 1` as the claim's length formula states. -/
theorem resample_floor_length_counterexample :
    ¬ ((spotting_feed [1, 2, 3, 4]).length
        = [(1 : Int), 2, 3, 4].length / DECIMATION_FACTOR) := by
  decide

/-- Claim C3 (corrected): the spotting-model feed and the voice-activity feed
are the same exact pick-every-third decimation: output length is `⌈N/3⌉`
(which equals `⌊N/3⌋` only when 3 divides N), and the i-th output sample is
the native sample at index `3·i`; the recognition file is instead written from
`scipy.signal.decimate` output and is not this pick transformation. -/
theorem resampled_feed_decimation (l : List Int) :
    (spotting_feed l).length = (l.length + 2) / 3 ∧
    vad_feed l = spotting_feed l ∧
    ∀ i : Nat, (spotting_feed l).getD i 0 = l.getD (i * 3) 0 := by
  have h3 : DECIMATION_FACTOR = 3 := rfl
  refine ⟨?_, rfl, ?_⟩
  · have := everyKth_length l 3 (by omega)
    simpa [spotting_feed, h3] using this
  · intro i
    have := everyKth_getD l 3 (by omega) i
    simpa [spotting_feed, h3] using this

/-- Claim C4 counterexample: with `max_history_messages = 2` and a history
already holding two turns, one full turn of `answer_question` (user append
plus trim, then assistant append) leaves three entries — the assistant append
is not re-trimmed, so the bound is exceeded after the reply. -/
theorem history_bound_counterexample :
    ¬ ((append_assistant
          (answer_question_begin
            { bot0 with conversation_history := [⟨"user", "q1"⟩, ⟨"assistant", "a1"⟩] }
            10 "q2" 300 2) "a2").conversation_history.length ≤ 2) := by
  simp only [append_assistant, answer_question_begin, history_after_user_turn, pySliceLast,
    bot0, decide_eq_true_eq]
  norm_num

/-- Claim C4 (corrected): the bound holds at the trim point — after the user
turn is appended the history is trimmed to at most `max_history_messages`
entries (for any positive configured maximum), and the retained entries are a
suffix (the most recent turns in original order) — but the assistant reply is
appended without re-trimming, so after it the length is only bounded by
`max_history_messages + 1`. -/
theorem history_bound_amended (b : Bot) (now : ℚ) (q a : String)
    (chat_history_timeout : ℚ) (max_history : Nat) (hm : 1 ≤ max_history) :
    (answer_question_begin b now q chat_history_timeout max_history).conversation_history.length
        ≤ max_history ∧
    (append_assistant (answer_question_begin b now q chat_history_timeout max_history)
        a).conversation_history.length ≤ max_history + 1 ∧
    (answer_question_begin b now q chat_history_timeout
        max_history).conversation_history.IsSuffix
      ((if chat_history_timeout < now - b.last_interaction_time then []
        else b.conversation_history) ++ [⟨"user", q⟩]) := by
  have hlen : (answer_question_begin b now q chat_history_timeout
      max_history).conversation_history.length ≤ max_history :=
    history_after_user_turn_length _ _ _ _ hm
  refine ⟨hlen, ?_, ?_⟩
  · simp only [append_assistant, List.length_append, List.length_cons, List.length_nil]
    omega
  · have := history_after_user_turn_suffix b.conversation_history
      (decide (chat_history_timeout < now - b.last_interaction_time)) q max_history
    simp only [answer_question_begin]
    simpa [decide_eq_true_eq] using this

/-- Witness for C4 (amended): a concrete turn at the default maximum of 10;
empty history grows to one entry, two after the reply. -/
theorem history_bound_amended_witness :
    (answer_question_begin bot0 10 "hello" 300 10).conversation_history.length ≤ 10 ∧
    (append_assistant (answer_question_begin bot0 10 "hello" 300 10)
        "hi").conversation_history.length ≤ 11 := by
  refine ⟨(history_bound_amended bot0 10 "hello" "hi" 300 10 (by omega)).1,
          (history_bound_amended bot0 10 "hello" "hi" 300 10 (by omega)).2.1⟩

/-- Claim C5 (code bug): the exception branch of `transcribe_audio` goes to
IDLE unconditionally and sets no cooldown, even with wake word enabled —
unlike the empty-transcript branch, which does set the one-second cooldown and
return to WAKE_LISTENING exactly as the claim says. -/
theorem transcribe_failure_goes_idle :
    bot0.wake_word_enabled = true ∧
    (transcribe_audio bot0 100 .failure).1.state = .idle ∧
    (transcribe_audio bot0 100 .failure).1.tts_cooldown_until = 0 ∧
    (transcribe_audio bot0 100 (.result "")).1.state = .wake_listening ∧
    (transcribe_audio bot0 100 (.result "")).1.tts_cooldown_until = 100 + 1 := by
  refine ⟨rfl, rfl, rfl, rfl, rfl⟩

/-- Claim C6 counterexample: for the transcript "what time is it" the
dispatcher's selected path does call the inference service, refuting "never
calling the external inference (LLM) service for this transcript". -/
theorem time_query_calls_llm_counterexample :
    ¬ (calls_llm (dispatch_path (detect_command_category "what time is it")) = false) := by
  decide

/-- Claim C6 (corrected): stage-1 detection classifies "what time is it" as a
time command, and the dispatcher then takes the stage-2 path that calls the
inference service with the declared tools (the local date/time function runs
only as a returned tool invocation); only a camera category bypasses
inference. -/
theorem time_query_stage2_path :
    detect_command_category "what time is it" = some "TIME_COMMAND" ∧
    dispatch_path (detect_command_category "what time is it") = .llm_with_tools ∧
    calls_llm (dispatch_path (detect_command_category "what time is it")) = true ∧
    dispatch_path (some "CAMERA_COMMAND") = .camera_direct := by
  refine ⟨by decide, by decide, by decide, by decide⟩

/-- Claim C7 (confirmed): handling `STOP_RECORDING` in any state other than
LISTENING returns the bot completely unchanged — state, buffers, flags and
history — requests no external call, and answers "OK". -/
theorem stop_recording_guard_noop (b : Bot) (now : ℚ) (camera_enabled : Bool)
    (h : b.state ≠ .listening) :
    handle_command b now camera_enabled "STOP_RECORDING" = (b, [], "OK") := by
  unfold handle_command
  rw [if_neg (by decide), if_pos rfl, if_neg h]

/-- Witness for C7: `STOP_RECORDING` received in WAKE_LISTENING is a no-op. -/
theorem stop_recording_guard_noop_witness :
    handle_command bot0 0 true "STOP_RECORDING" = (bot0, [], "OK") :=
  stop_recording_guard_noop bot0 0 true (by decide)

/-- Claim C8 (confirmed): during an active recording with VAD enabled, the
block stops the recording exactly when, after the speech-flag update, speech
has been observed and the silence run reaches the threshold, or the elapsed
time reaches the recording ceiling; while no speech has been observed, only
the elapsed-time ceiling can stop it. -/
theorem vad_endpoint_stop_iff (b : Bot) (block : List Int) (vad_verdicts : List Bool)
    (now : ℚ) (cfg : WakeConfig)
    (hrec : b.is_recording = true) (hvad : b.vad = true) :
    ((recording_step b block vad_verdicts now cfg).2 = true ↔
      (((b.speech_started || vad_verdicts.any (fun v => v)) = true ∧
        cfg.silence_threshold ≤
          now - (if vad_verdicts.any (fun v => v) then now else b.last_speech_time)) ∨
       b.recording_duration ≤ now - b.recording_start_time)) ∧
    ((b.speech_started || vad_verdicts.any (fun v => v)) = false →
      ((recording_step b block vad_verdicts now cfg).2 = true ↔
        b.recording_duration ≤ now - b.recording_start_time)) := by
  have hb : ¬ b.is_recording = false := by simp [hrec]
  unfold recording_step
  rw [if_neg hb]
  dsimp only
  rw [hvad, if_pos rfl]
  by_cases hs : vad_verdicts.any (fun v => v) = true
  · rw [if_pos hs]
    dsimp only
    constructor
    · split_ifs with h1 h2
      · exact iff_of_true rfl (Or.inl ⟨by simp [hs], h1.2⟩)
      · exact iff_of_true rfl (Or.inr h2)
      · refine iff_of_false (by simp) ?_
        rintro (⟨_, hsil⟩ | hdur)
        · exact h1 ⟨rfl, hsil⟩
        · exact h2 hdur
    · intro hcontra
      simp [hs] at hcontra
  · have hs' : vad_verdicts.any (fun v => v) = false := by
      simpa using hs
    rw [if_neg hs]
    dsimp only
    constructor
    · split_ifs with h1 h2
      · exact iff_of_true rfl (Or.inl ⟨by simp [hs', h1.1], h1.2⟩)
      · exact iff_of_true rfl (Or.inr h2)
      · refine iff_of_false (by simp) ?_
        rintro (⟨hsp, hsil⟩ | hdur)
        · rw [hs', Bool.or_false] at hsp
          exact h1 ⟨hsp, hsil⟩
        · exact h2 hdur
    · intro hns
      rw [hs', Bool.or_false] at hns
      split_ifs with h1 h2
      · exact absurd h1.1 (by simp [hns])
      · exact iff_of_true rfl h2
      · exact iff_of_false (by simp) h2

/-- Witness for C8: with speech already observed at t = 0, silence threshold
0.8 s and a silent block at t = 2, the recording stops. -/
theorem vad_endpoint_stop_iff_witness :
    (recording_step
        { bot0 with is_recording := true, vad := true, speech_started := true }
        [] [] 2 cfg0).2 = true := by
  exact (vad_endpoint_stop_iff
      { bot0 with is_recording := true, vad := true, speech_started := true }
      [] [] 2 cfg0 rfl rfl).1.mpr (Or.inl ⟨by decide, by norm_num [bot0, cfg0]⟩)

/-- Claim C9 (confirmed): `set_volume` clamps its integer argument to
`[0, 100]` before acting — inputs below 0 become 0, inputs above 100 become
100 — the clamped value is what reaches the `amixer` command line and the
success message, and every outcome (success, non-zero exit, exception)
produces a string. -/
theorem set_volume_clamps (percent : Int) (lang : String) :
    (0 ≤ clamp_percent percent ∧ clamp_percent percent ≤ 100) ∧
    (percent < 0 → clamp_percent percent = 0) ∧
    (100 < percent → clamp_percent percent = 100) ∧
    amixer_args percent
        = ["amixer", "set", "Speaker", toString (clamp_percent percent) ++ "%"] ∧
    set_volume lang percent .ok = get_string_volume_set lang (clamp_percent percent) ∧
    (∀ stderr, set_volume lang percent (.failed stderr)
        = get_string_volume_error lang stderr) ∧
    (∀ e, set_volume lang percent (.raised e) = get_string_volume_error lang e) := by
  refine ⟨⟨?_, ?_⟩, ?_, ?_, rfl, rfl, fun _ => rfl, fun _ => rfl⟩
  · unfold clamp_percent; omega
  · unfold clamp_percent; omega
  · intro h; unfold clamp_percent; omega
  · intro h; unfold clamp_percent; omega

/-- Witness for C9: −7 clamps to 0 and 123 clamps to 100, with the success
message rendered from the clamped value. -/
theorem set_volume_clamps_witness :
    ((-7 : Int) < 0 ∧ clamp_percent (-7) = 0) ∧
    ((100 : Int) < 123 ∧ clamp_percent 123 = 100) ∧
    set_volume "en" 123 .ok = get_string_volume_set "en" (clamp_percent 123) := by
  refine ⟨⟨by omega, (set_volume_clamps (-7) "en").2.1 (by omega)⟩,
          ⟨by omega, (set_volume_clamps 123 "en").2.2.1 (by omega)⟩,
          (set_volume_clamps 123 "en").2.2.2.2.1⟩

/-- Claim C10 (confirmed): `execute_tool` is total over its inputs — an
unknown function name returns exactly `"Unknown function: <name>"` with no
side effects, and argument keys outside the target function's declared
parameters are dropped before the call, so they cannot change the result. -/
theorem execute_tool_total (w : ToolWorld) :
    (∀ function_name arguments, function_name ∉ TOOL_NAMES →
        execute_tool w function_name arguments
          = ("Unknown function: " ++ function_name, [])) ∧
    (∀ function_name kvs,
        execute_tool w function_name (some kvs)
          = execute_tool w function_name
              (some (kvs.filter
                (fun kv => decide (kv.1 ∈ tool_param_names function_name))))) := by
  constructor
  · intro n a h
    unfold execute_tool
    rw [if_neg h]
  · intro n kvs
    unfold execute_tool
    by_cases h : n ∈ TOOL_NAMES
    · rw [if_pos h, if_pos h]
      dsimp only
      congr 1
      rw [List.filter_filter]
      simp only [Bool.and_self]
    · rw [if_neg h, if_neg h]

/-- Witness for C10: a name outside the tool table yields the unknown-function
string with no effects, and a stray `bogus` key does not change a
`set_volume` invocation. -/
theorem execute_tool_total_witness :
    execute_tool world0 "foo_tool" none = ("Unknown function: foo_tool", []) ∧
    execute_tool world0 "set_volume" (some [("percent", 50), ("bogus", 7)])
      = execute_tool world0 "set_volume"
          (some ([("percent", 50), ("bogus", 7)].filter
            (fun kv => decide (kv.1 ∈ tool_param_names "set_volume")))) := by
  refine ⟨(execute_tool_total world0).1 "foo_tool" none (by decide),
          (execute_tool_total world0).2 "set_volume" [("percent", 50), ("bogus", 7)]⟩

end Robot
